import Mathlib

/-!
Verification development for the fastestimator repository.

Each definition is a shallow embedding of a source function (file and lines
noted in its doc comment).  Machine floats are modelled by exact rationals;
numpy arrays by lists.
-/

/-- Outcome of `Onehot._apply_onehot` (src/fastestimator/op/numpyop/univariate/onehot.py,
lines 35-43): either a raised `AssertionError`, a raised `IndexError` (from numpy
fancy indexing out of range), or a returned vector. -/
inductive OnehotOut where
  | assertionError : OnehotOut
  | indexError : OnehotOut
  | result : List ℚ → OnehotOut
  deriving DecidableEq

/-- Model of the argument `data` after `np.array(data)`: whether its dtype string
contains "int", and its flattened element values. -/
structure NpValue where
  intDtype : Bool
  values : List Int
  deriving DecidableEq

/-- Numpy/Python indexing semantics: a negative index `i` addresses position
`n + i`. -/
def pyIndex (n : Nat) (i : Int) : Int :=
  if i < 0 then (n : Int) + i else i

/-- Embedding of `Onehot._apply_onehot` (onehot.py lines 35-43):
assert "int" in dtype; assert size == 1; assert class_index < num_classes;
then `output = np.full(num_classes, label_smoothing/num_classes)` and
`output[class_index] = 1 - label_smoothing + label_smoothing/num_classes`,
where the numpy write raises IndexError when the (possibly negative) index is
out of range. -/
def applyOnehot (numClasses : Nat) (labelSmoothing : ℚ) (data : NpValue) : OnehotOut :=
  if data.intDtype = false then .assertionError
  else if data.values.length ≠ 1 then .assertionError
  else if (numClasses : Int) ≤ data.values.headI then .assertionError
  else if 0 ≤ pyIndex numClasses data.values.headI ∧
      pyIndex numClasses data.values.headI < (numClasses : Int) then
    .result ((List.replicate numClasses (labelSmoothing / (numClasses : ℚ))).set
      (pyIndex numClasses data.values.headI).toNat
      (1 - labelSmoothing + labelSmoothing / (numClasses : ℚ)))
  else .indexError

/-- `Onehot.forward` (onehot.py lines 32-33) maps `_apply_onehot` over the
elements of `data`; the first raised error propagates. -/
def onehotForward (numClasses : Nat) (labelSmoothing : ℚ) (data : List NpValue) :
    List OnehotOut :=
  data.map (applyOnehot numClasses labelSmoothing)

/-- Accumulated state of the `F1AUCScores` trace
(src/apphub/anomaly_detection/alocc/alocc_torch.py, lines 124-160):
the two lists `self.y_true` and `self.y_pred`. -/
structure F1State where
  yTrue : List ℚ
  yPred : List ℚ
  deriving DecidableEq

/-- `F1AUCScores.__init__` (alocc_torch.py lines 127-130): both lists start empty. -/
def f1aucInit : F1State := ⟨[], []⟩

/-- `F1AUCScores.on_epoch_begin` (alocc_torch.py lines 140-142): both lists reset. -/
def onEpochBegin (_st : F1State) : F1State := ⟨[], []⟩

/-- `F1AUCScores.on_batch_end` (alocc_torch.py lines 144-148).  `yt`/`yp` are the
raveled elements of the batch's true/predicted arrays.  The returned Bool is
whether the `assert y_pred.size == y_true.size` raised; the assert precedes the
two `extend` calls, so on failure the state is returned untouched. -/
def onBatchEnd (st : F1State) (yt yp : List ℚ) : F1State × Bool :=
  if yp.length = yt.length then (⟨st.yTrue ++ yt, st.yPred ++ yp⟩, false)
  else (st, true)

/-- Insert `x` into a descending-sorted list, keeping it descending. -/
def insertDesc (x : ℚ) : List ℚ → List ℚ
  | [] => [x]
  | y :: ys => if y ≤ x then x :: y :: ys else y :: insertDesc x ys

/-- Sort a list of rationals in decreasing order (insertion sort). -/
def sortDesc (l : List ℚ) : List ℚ := l.foldr insertDesc []

/-- True positives at threshold `t` over (label, score) pairs with positive label
1: the count of pairs with score >= t and label = 1.  This is the semantic
content of sklearn's `_binary_clf_curve` cumulative sums. -/
def tpsAt (pairs : List (ℚ × ℚ)) (t : ℚ) : Nat :=
  (pairs.filter fun p => decide (t ≤ p.2) && decide (p.1 = 1)).length

/-- False positives at threshold `t`: pairs with score >= t and label different
from the positive label 1. -/
def fpsAt (pairs : List (ℚ × ℚ)) (t : ℚ) : Nat :=
  (pairs.filter fun p => decide (t ≤ p.2) && decide (¬ p.1 = 1)).length

/-- Second difference of `l` at interior index `i` is nonzero
(`np.diff(l, 2)` used by sklearn's `drop_intermediate`). -/
def secondDiffNonzero (l : List Int) (i : Nat) : Bool :=
  decide (l.getD (i + 1) 0 - 2 * l.getD i 0 + l.getD (i - 1) 0 ≠ 0)

/-- sklearn `roc_curve`'s `drop_intermediate` step: when more than two points
exist, keep only the first point, the last point, and points where the second
difference of `fps` or of `tps` is nonzero. -/
def dropIntermediate (fps tps : List Int) (ts : List ℚ) :
    List Int × List Int × List ℚ :=
  if fps.length ≤ 2 then (fps, tps, ts)
  else
    let idxs := (List.range fps.length).filter fun i =>
      decide (i = 0) || decide (i = fps.length - 1) ||
        secondDiffNonzero fps i || secondDiffNonzero tps i
    (idxs.map fun i => fps.getD i 0, idxs.map fun i => tps.getD i 0,
      idxs.map fun i => ts.getD i 0)

/-- Model of `sklearn.metrics.roc_curve(y_true, y_score, pos_label=1)` as called
at alocc_torch.py line 151 (external library; modelled from sklearn's
implementation): thresholds are the distinct scores in decreasing order, counts
are taken per threshold, intermediate collinear points are dropped, a
(0, 0, max-score + 1) point is prepended, and the counts are normalized by the
total negatives/positives.  Returns (fpr, tpr, thresholds).  Division by a zero
total (sklearn would give NaN there) is excluded by hypotheses where it matters. -/
def rocCurve (yTrue yPred : List ℚ) : List ℚ × List ℚ × List ℚ :=
  let pairs := yTrue.zip yPred
  let ts0 := (sortDesc yPred).dedup
  let fps0 := ts0.map fun t => (fpsAt pairs t : Int)
  let tps0 := ts0.map fun t => (tpsAt pairs t : Int)
  let dropped := dropIntermediate fps0 tps0 ts0
  let fps : List Int := 0 :: dropped.1
  let tps : List Int := 0 :: dropped.2.1
  let ts : List ℚ := (dropped.2.2.headD 0 + 1) :: dropped.2.2
  let totN : ℚ := (fps.getLastD 0 : Int)
  let totP : ℚ := (tps.getLastD 0 : Int)
  (fps.map fun c => (c : ℚ) / totN, tps.map fun c => (c : ℚ) / totP, ts)

/-- First index of the minimum of a list (`np.nanargmin` on NaN-free data). -/
def argminIdx : List ℚ → Nat
  | [] => 0
  | [_] => 0
  | x :: y :: ys =>
    let j := argminIdx (y :: ys)
    if x ≤ (y :: ys).getD j 0 then 0 else j + 1

/-- alocc_torch.py line 153:
`eer_threshold = thresholds[np.nanargmin(np.absolute((1 - tpr - fpr)))]`. -/
def eerThreshold (yTrue yPred : List ℚ) : ℚ :=
  let r := rocCurve yTrue yPred
  r.2.2.getD (argminIdx (List.zipWith (fun tp f => |1 - tp - f|) r.2.1 r.1)) 0

/-- Trapezoidal integration `np.trapz(y, x)` used by `sklearn.metrics.auc`
(fpr is nondecreasing so sklearn's direction factor is 1). -/
def trapz : List ℚ → List ℚ → ℚ
  | x1 :: x2 :: xs, y1 :: y2 :: ys => (x2 - x1) * (y2 + y1) / 2 + trapz (x2 :: xs) (y2 :: ys)
  | _, _ => 0

/-- alocc_torch.py line 152: `roc_auc = auc(fpr, tpr)`. -/
def aucScore (yTrue yPred : List ℚ) : ℚ :=
  let r := rocCurve yTrue yPred
  trapz r.1 r.2.1

/-- alocc_torch.py lines 154-156: the two sequential in-place masked
assignments `y_pred_class[y_pred_class >= t] = 1` then
`y_pred_class[y_pred_class < t] = 0`, applied to a copy of the accumulated
predictions. -/
def classifyStep (preds : List ℚ) (t : ℚ) : List ℚ :=
  (preds.map fun x => if t ≤ x then 1 else x).map fun x => if x < t then 0 else x

/-- Model of `sklearn.metrics.f1_score(y_true, y_pred, pos_label=0)` as called
at alocc_torch.py line 157 (external library; modelled from sklearn's
definition): 2*tp / (2*tp + fp + fn) with positive class 0, and 0 when the
denominator is 0 (sklearn's zero_division default). -/
def f1ScorePos0 (yTrue yPredClass : List ℚ) : ℚ :=
  let pairs := yTrue.zip yPredClass
  let tp : ℚ := ((pairs.filter fun p => decide (p.1 = 0) && decide (p.2 = 0)).length : ℚ)
  let fp : ℚ := ((pairs.filter fun p => decide (¬ p.1 = 0) && decide (p.2 = 0)).length : ℚ)
  let fnn : ℚ := ((pairs.filter fun p => decide (p.1 = 0) && decide (¬ p.2 = 0)).length : ℚ)
  2 * tp / (2 * tp + fp + fnn)

/-- The keyed data mapping threaded through traces: string keys to values. -/
abbrev DataMap := String → Option ℚ

/-- Modelled from the spec: `Data.write_with_log` of the fastestimator core is
not under src/ (only its caller `F1AUCScores.on_epoch_end` is); per the spec,
"declared output keys overwrite or add entries" of the keyed mapping. -/
def writeWithLog (d : DataMap) (k : String) (v : ℚ) : DataMap :=
  fun q => if q = k then some v else d q

/-- `F1AUCScores.on_epoch_end` (alocc_torch.py lines 150-160): compute the AUC
score and the F1 score at the equal-error-rate threshold from the accumulated
lists, then write them under `outputs[0]` and `outputs[1]` respectively. -/
def f1aucOnEpochEnd (st : F1State) (out0 out1 : String) (d : DataMap) : DataMap :=
  writeWithLog (writeWithLog d out0 (aucScore st.yTrue st.yPred)) out1
    (f1ScorePos0 st.yTrue (classifyStep st.yPred (eerThreshold st.yTrue st.yPred)))

/-- `SplitOp.forward` of the TensorFlow CVAE example
(src/apphub/image_generation/cvae/cvae_tf.py lines 24-28):
`tf.split(data, num_or_size_splits=2, axis=1)` splits a 2-D tensor (rows of the
list) into two equal column halves, and errors (`none`) when the column count is
not divisible by 2. -/
def tfSplitForward (data : List (List ℚ)) : Option (List (List ℚ) × List (List ℚ)) :=
  let c := (data.headD []).length
  if c % 2 = 0 then
    some (data.map fun r => r.take (c / 2), data.map fun r => r.drop (c / 2))
  else none

/-- `SplitOp.forward` of the PyTorch CVAE example
(src/apphub/image_generation/cvae/cvae_torch.py lines 38-42):
`torch.split(data, LATENT_DIM, dim=1)` with `LATENT_DIM = 2` (cvae_torch.py
line 35) cuts the columns into chunks of size 2 (last chunk possibly smaller),
and the destructuring `mean, logvar = ...` succeeds only when there are exactly
two chunks, i.e. when `ceil(c / 2) = 2`; otherwise Python raises (`none`). -/
def torchSplitForward (data : List (List ℚ)) : Option (List (List ℚ) × List (List ℚ)) :=
  let c := (data.headD []).length
  if (c + 1) / 2 = 2 then
    some (data.map fun r => r.take 2, data.map fun r => r.drop 2)
  else none

/-- A dense array: a shape and the row-major element list. -/
structure NDArray where
  shape : List Nat
  data : List ℚ
  deriving DecidableEq

/-- The numerical backend a tensor belongs to. -/
inductive Backend where
  | np | tf | torch
  deriving DecidableEq

/-- Modelled from the spec: `fastestimator.backend.reshape` is not under src/
(only its unit test src/test/PR_test/unit_test/backend/test_reshape.py is).
Per the spec it dispatches the same row-major reshape to each backend:
"reshape preserves element count and yields the requested shape across
backends".  Requesting a shape whose dimensions do not multiply to the element
count errors (`none`). -/
def feReshape (_b : Backend) (x : NDArray) (s : List Nat) : Option NDArray :=
  if s.prod = x.data.length then some ⟨s, x.data⟩ else none

/-- An operator of a pipeline or network as declared in the example scripts:
its input keys, its output keys, and the execution modes it is restricted to
(`none` = runs in every mode). -/
structure OpSpec where
  inputs : List String
  outputs : List String
  modes : Option (List String)

/-- Whether an operator runs in execution mode `m`. -/
def opRunsIn (m : String) (op : OpSpec) : Bool :=
  match op.modes with
  | none => true
  | some ms => ms.contains m

/-- Thread the set of available keys through an operator sequence in mode `m`:
an operator that runs in `m` requires all its input keys to be present and then
adds its output keys; `none` when some input key is missing. -/
def keysAfter (m : String) : List String → List OpSpec → Option (List String)
  | keys, [] => some keys
  | keys, op :: ops =>
    if opRunsIn m op then
      if op.inputs.all fun k => keys.contains k then
        keysAfter m (keys ++ op.outputs) ops
      else none
    else keysAfter m keys ops

/-- Every operator of the sequence finds its declared input keys in the mapping
at the point it executes in mode `m`, starting from the dataset keys `init`. -/
def opsWellKeyed (m : String) (init : List String) (ops : List OpSpec) : Bool :=
  (keysAfter m init ops).isSome

/-- The declared operator sequence of the ALOCC example
(alocc_torch.py: pipeline ops lines 179-192, network ops lines 201-210), in
execution order: ExpandDims, Normalize, the noise LambdaOp (train only),
ChannelTranspose on x, ChannelTranspose on x_w_noise (train only), the two
reconstructor ModelOps (train / eval), the discriminator ModelOps, RLoss,
UpdateOp, DLoss, UpdateOp.  The two UpdateOps read their declared loss and are
train-only (parameter updates happen during training). -/
def aloccOps : List OpSpec :=
  [⟨["x"], ["x"], none⟩,
   ⟨["x"], ["x"], none⟩,
   ⟨["x"], ["x_w_noise"], some ["train"]⟩,
   ⟨["x"], ["x"], none⟩,
   ⟨["x_w_noise"], ["x_w_noise"], some ["train"]⟩,
   ⟨["x_w_noise"], ["x_fake"], some ["train"]⟩,
   ⟨["x"], ["x_fake"], some ["eval"]⟩,
   ⟨["x_fake"], ["fake_score"], none⟩,
   ⟨["x"], ["true_score"], none⟩,
   ⟨["fake_score", "x_fake", "x"], ["rloss"], none⟩,
   ⟨["rloss"], [], some ["train"]⟩,
   ⟨["true_score", "fake_score"], ["dloss"], none⟩,
   ⟨["dloss"], [], some ["train"]⟩]

/-- The declared operator sequence of the TensorFlow CVAE example
(cvae_tf.py: pipeline ops lines 80-89, network ops lines 94-103): ExpandDims,
Minmax, Binarize, encoder ModelOp, SplitOp, ReparameterizepOp, decoder ModelOp,
CrossEntropy, CVAELoss, two UpdateOps. -/
def cvaeTfOps : List OpSpec :=
  [⟨["x"], ["x"], none⟩,
   ⟨["x"], ["x"], none⟩,
   ⟨["x"], ["x"], none⟩,
   ⟨["x"], ["meanlogvar"], none⟩,
   ⟨["meanlogvar"], ["mean", "logvar"], none⟩,
   ⟨["mean", "logvar"], ["z"], none⟩,
   ⟨["z"], ["x_logit"], none⟩,
   ⟨["x_logit", "x"], ["cross_entropy"], none⟩,
   ⟨["cross_entropy", "mean", "logvar", "z"], ["loss"], none⟩,
   ⟨["loss"], [], some ["train"]⟩,
   ⟨["loss"], [], some ["train"]⟩]

/-- The declared operator sequence of the PyTorch CVAE example
(cvae_torch.py: pipeline ops lines 115-122, network ops lines 127-136); same
key structure as the TensorFlow variant. -/
def cvaeTorchOps : List OpSpec :=
  [⟨["x"], ["x"], none⟩,
   ⟨["x"], ["x"], none⟩,
   ⟨["x"], ["x"], none⟩,
   ⟨["x"], ["meanlogvar"], none⟩,
   ⟨["meanlogvar"], ["mean", "logvar"], none⟩,
   ⟨["mean", "logvar"], ["z"], none⟩,
   ⟨["z"], ["x_logit"], none⟩,
   ⟨["x_logit", "x"], ["cross_entropy"], none⟩,
   ⟨["cross_entropy", "mean", "logvar", "z"], ["loss"], none⟩,
   ⟨["loss"], [], some ["train"]⟩,
   ⟨["loss"], [], some ["train"]⟩]

/-- Model of pylatex's `escape_latex` character table
(external library called at src/fastestimator/util/latex_util.py line 179). -/
def escapeChar (c : Char) : String :=
  if c = '&' then "\\&"
  else if c = '%' then "\\%"
  else if c = '$' then "\\$"
  else if c = '#' then "\\#"
  else if c = '_' then "\\_"
  else if c = Char.ofNat 123 then "\\\x7b"
  else if c = Char.ofNat 125 then "\\\x7d"
  else if c = '~' then "\\textasciitilde\x7b\x7d"
  else if c = '^' then "\\^\x7b\x7d"
  else if c = '\\' then "\\textbackslash\x7b\x7d"
  else if c = '\n' then "\\newline%\n"
  else if c = '-' then "\x7b-\x7d"
  else if c = Char.ofNat 160 then "~"
  else String.singleton c

/-- pylatex `escape_latex`: escape each character of the string. -/
def escape_latex (s : String) : String :=
  String.join (s.toList.map escapeChar)

/-- State of a `WrapText` object (src/fastestimator/util/latex_util.py lines
156-170): `self.data = str(data)` (the stringified input) and the threshold. -/
structure WrapText where
  data : String
  threshold : Int

/-- `WrapText.__init__` applied to a `str` input: `str` is the identity. -/
def wrapTextOfString (s : String) (t : Int) : WrapText := ⟨s, t⟩

/-- `WrapText.__init__` applied to an `int` input: Python's `str(int)` decimal
rendering. -/
def wrapTextOfInt (i : Int) (t : Int) : WrapText := ⟨toString i, t⟩

/-- `WrapText.dumps` (latex_util.py lines 172-181): the seqsplit-wrapped
LaTeX-escaped string when `len(self.data) > self.threshold`, else the plain
LaTeX-escaped string. -/
def WrapText.dumps (w : WrapText) : String :=
  if w.threshold < (w.data.length : Int) then
    "\\seqsplit\x7b" ++ escape_latex w.data ++ "\x7d"
  else escape_latex w.data

/-- The sum of `List.replicate n a` with position `p < n` overwritten by `b`. -/
theorem sum_replicate_set (n p : Nat) (a b : ℚ) (hp : p < n) :
    ((List.replicate n a).set p b).sum = n * a - a + b := by
  induction n generalizing p with
  | zero => exact absurd hp (Nat.not_lt_zero p)
  | succ m ih =>
    cases p with
    | zero =>
      simp [List.replicate_succ, List.sum_replicate, nsmul_eq_mul]
      ring
    | succ q =>
      have hq : q < m := Nat.lt_of_succ_lt_succ hp
      simp [List.replicate_succ, ih q hq]
      ring

/-- Pointwise effect of the two sequential masked assignments of
`on_epoch_end`: a value ends up 1 exactly when it is at least the threshold
and the threshold is at most 1 (a threshold above 1 re-flags the written 1s
back to 0 in the second assignment). -/
theorem classify_pointwise (t x : ℚ) :
    (if (if t ≤ x then (1 : ℚ) else x) < t then (0 : ℚ) else if t ≤ x then (1 : ℚ) else x) =
      if t ≤ x ∧ t ≤ 1 then 1 else 0 := by
  by_cases h1 : t ≤ x
  · by_cases h2 : t ≤ 1
    · rw [if_pos h1, if_neg (not_lt.mpr h2), if_pos ⟨h1, h2⟩]
    · rw [if_pos h1, if_pos (not_le.mp h2), if_neg fun hc => h2 hc.2]
  · rw [if_neg h1, if_pos (not_le.mp h1), if_neg fun hc => h1 hc.1]

/-- Claim C1 (counterexample): with accumulated labels [1, 0] and scores
[3, 2], the ROC thresholds are [4, 3, 2] with |1 - tpr - fpr| = [1, 0, 1], so
the equal-error-rate threshold is 3; the code's two sequential masked
assignments then classify every prediction as 0 (the 1 written for the score 3
is itself < 3 and is overwritten), while the claim's rule "1 iff >= threshold"
would classify the score 3 as 1. -/
theorem eer_classification_counterexample :
    eerThreshold [1, 0] [3, 2] = 3 ∧
    classifyStep [3, 2] (eerThreshold [1, 0] [3, 2]) = [0, 0] ∧
    List.map (fun x : ℚ => if eerThreshold [1, 0] [3, 2] ≤ x then 1 else 0) [3, 2] = [1, 0] := by
  have ht : eerThreshold [1, 0] [3, 2] = 3 := by
    norm_num [eerThreshold, rocCurve, sortDesc, insertDesc, List.dedup, List.foldr,
      dropIntermediate, fpsAt, tpsAt, List.filter, argminIdx, List.zipWith, List.getD]
  refine ⟨ht, ?_, ?_⟩ <;> rw [ht] <;> norm_num [classifyStep]

/-- Claim C1 (amended): in `F1AUCScores.on_epoch_end` the threshold is the ROC
threshold minimizing |1 - tpr - fpr|, and each accumulated prediction is
classified as 1 iff it is >= that threshold AND the threshold is at most 1;
when the threshold exceeds 1 every prediction is classified 0, because the
second in-place masked assignment overwrites the 1s written by the first. -/
theorem eer_classification_amended (yTrue yPred : List ℚ) :
    classifyStep yPred (eerThreshold yTrue yPred) =
      yPred.map fun x =>
        if eerThreshold yTrue yPred ≤ x ∧ eerThreshold yTrue yPred ≤ 1 then 1 else 0 := by
  generalize eerThreshold yTrue yPred = t
  induction yPred with
  | nil => rfl
  | cons a l ih =>
    simp only [classifyStep, List.map_cons] at ih ⊢
    rw [classify_pointwise t a, ih]

/-- Claim C2 (counterexample): for num_classes = 3 the element -1 is a size-1
integer value lying outside the valid label range [0, 3), yet
`_apply_onehot` raises no AssertionError: it returns the one-hot vector
[0, 0, 1] (the hot index wraps around), refuting the claimed "if and only if". -/
theorem onehot_missing_lower_bound_cex :
    applyOnehot 3 0 ⟨true, [-1]⟩ = .result [0, 0, 1] ∧ ¬ (0 ≤ (-1 : Int)) := by
  refine ⟨?_, by norm_num⟩
  norm_num [applyOnehot, pyIndex, List.headI, List.replicate, List.set]

/-- Claim C2 (amended): `_apply_onehot` raises an AssertionError if and only if
the element is not a size-1 integer value or its value is >= num_classes; there
is no lower-bound assertion, so negative values never trigger it (values in
[-num_classes, 0) return normally and smaller ones raise IndexError instead). -/
theorem onehot_assert_iff_upper (nc : Nat) (ls : ℚ) (d : NpValue) :
    applyOnehot nc ls d = .assertionError ↔
      (d.intDtype = false ∨ d.values.length ≠ 1 ∨ (nc : Int) ≤ d.values.headI) := by
  unfold applyOnehot
  split_ifs with h1 h2 h3 h4
  · simp [h1]
  · simp [h2]
  · simp [h3]
  · simp [h1, h2, h3]
  · simp [h1, h2, h3]

/-- Claim C3: in every declared operator sequence of the examples (ALOCC,
TensorFlow CVAE, PyTorch CVAE) and in every execution mode of that example,
each operator's declared input keys are present in the keyed data mapping at the
point the operator executes - produced by the dataset, the pipeline ops, or an
earlier operator running in the same mode (in particular "x_w_noise" is
produced only in train mode and consumed only by train-restricted ops). -/
theorem example_ops_well_keyed :
    (opsWellKeyed "train" ["x", "y"] aloccOps = true ∧
      opsWellKeyed "eval" ["x", "y"] aloccOps = true) ∧
    (opsWellKeyed "train" ["x", "y"] cvaeTfOps = true ∧
      opsWellKeyed "eval" ["x", "y"] cvaeTfOps = true ∧
      opsWellKeyed "test" ["x", "y"] cvaeTfOps = true) ∧
    opsWellKeyed "train" ["x", "y"] cvaeTorchOps = true := by decide

/-- Claim C4 (counterexample): on the 2-D input [[1, 2, 3, 4, 5, 6]], which has
an even number of columns, the TensorFlow SplitOp returns the two column
halves while the PyTorch SplitOp fails (torch.split with chunk size 2 yields
three chunks, so the two-name destructuring raises), so the two do not compute
the same function on every even-width input. -/
theorem splitop_divergence_cex :
    (6 : Nat) % 2 = 0 ∧
    tfSplitForward [[1, 2, 3, 4, 5, 6]] = some ([[1, 2, 3]], [[4, 5, 6]]) ∧
    torchSplitForward [[1, 2, 3, 4, 5, 6]] = none := by
  refine ⟨rfl, ?_, ?_⟩ <;> norm_num [tfSplitForward, torchSplitForward]

/-- Claim C4 (amended): the two SplitOps compute the same function on every
nonempty 2-D input with exactly 4 = 2 * LATENT_DIM columns: both return the
pair (first half of the columns, second half of the columns). -/
theorem splitop_agree_four_cols (data : List (List ℚ)) (hne : data ≠ [])
    (h4 : ∀ r ∈ data, r.length = 4) :
    tfSplitForward data = some (data.map fun r => r.take 2, data.map fun r => r.drop 2) ∧
    torchSplitForward data = some (data.map fun r => r.take 2, data.map fun r => r.drop 2) := by
  obtain ⟨a, l, rfl⟩ := List.exists_cons_of_ne_nil hne
  have ha : a.length = 4 := h4 a (List.mem_cons_self a l)
  unfold tfSplitForward torchSplitForward
  simp [ha]

/-- Witness for claim C4's amended theorem at the concrete input [[1, 2, 3, 4]]. -/
theorem splitop_agree_four_cols_witness :
    tfSplitForward [[1, 2, 3, 4]] =
      some ([[1, 2, 3, 4]].map fun r => r.take 2, [[1, 2, 3, 4]].map fun r => r.drop 2) ∧
    torchSplitForward [[1, 2, 3, 4]] =
      some ([[1, 2, 3, 4]].map fun r => r.take 2, [[1, 2, 3, 4]].map fun r => r.drop 2) :=
  splitop_agree_four_cols [[1, 2, 3, 4]] (by decide) (by decide)

/-- Claim C5: `F1AUCScores.on_epoch_end` writes exactly its two declared output
keys - outputs[0] receives the AUC score and outputs[1] the F1 score -
overwriting or adding those entries, and leaves every other entry of the keyed
data mapping unchanged. -/
theorem f1auc_on_epoch_end_frame (st : F1State) (out0 out1 k : String) (d : DataMap)
    (hne : out0 ≠ out1) (hk0 : k ≠ out0) (hk1 : k ≠ out1) :
    f1aucOnEpochEnd st out0 out1 d out0 = some (aucScore st.yTrue st.yPred) ∧
    f1aucOnEpochEnd st out0 out1 d out1 =
      some (f1ScorePos0 st.yTrue (classifyStep st.yPred (eerThreshold st.yTrue st.yPred))) ∧
    f1aucOnEpochEnd st out0 out1 d k = d k := by
  unfold f1aucOnEpochEnd writeWithLog
  refine ⟨?_, ?_, ?_⟩
  · rw [if_neg hne, if_pos rfl]
  · rw [if_pos rfl]
  · rw [if_neg hk1, if_neg hk0]

/-- Witness for claim C5's theorem at the trace's default output names and an
empty mapping: the key "x" is untouched. -/
theorem f1auc_on_epoch_end_frame_witness :
    f1aucOnEpochEnd ⟨[1, 0], [3, 2]⟩ "auc_score" "f1_score" (fun _ => none) "x" =
      (fun _ => none : DataMap) "x" :=
  (f1auc_on_epoch_end_frame ⟨[1, 0], [3, 2]⟩ "auc_score" "f1_score" "x" (fun _ => none)
    (by decide) (by decide) (by decide)).2.2

/-- Claim C6: `F1AUCScores` preserves len(y_true) = len(y_pred): it holds after
construction, after `on_epoch_begin` (which resets both lists), and after every
`on_batch_end`; `on_batch_end` raises an AssertionError exactly when the batch's
true and predicted arrays differ in element count, and then leaves both
accumulated lists unchanged. -/
theorem f1auc_length_invariant (st : F1State) (yt yp : List ℚ)
    (hst : st.yTrue.length = st.yPred.length) :
    f1aucInit.yTrue.length = f1aucInit.yPred.length ∧
    (onEpochBegin st).yTrue.length = (onEpochBegin st).yPred.length ∧
    (onBatchEnd st yt yp).1.yTrue.length = (onBatchEnd st yt yp).1.yPred.length ∧
    (onBatchEnd st yt yp).2 = decide (yp.length ≠ yt.length) ∧
    ((onBatchEnd st yt yp).2 = false ∨ (onBatchEnd st yt yp).1 = st) := by
  unfold onBatchEnd
  by_cases h : yp.length = yt.length
  · simp [f1aucInit, onEpochBegin, h, hst]
  · simp [f1aucInit, onEpochBegin, h, hst]

/-- Witness for claim C6's theorem: a batch with 1 true element and 0 predicted
elements makes `on_batch_end` raise. -/
theorem f1auc_length_invariant_witness :
    (onBatchEnd ⟨[], []⟩ [1] []).2 = true :=
  ((f1auc_length_invariant ⟨[], []⟩ [1] [] rfl).2.2.2.1).trans (by decide)

/-- Claim C7: for every input array and every requested shape whose dimensions
multiply to the array's element count, reshape returns an array of exactly the
requested shape containing the same element list (so the element count is
preserved), on each backend. -/
theorem reshape_preserves_shape_and_elements (b : Backend) (x : NDArray) (s : List Nat)
    (h : s.prod = x.data.length) :
    feReshape b x s = some ⟨s, x.data⟩ := by
  unfold feReshape
  rw [if_pos h]

/-- Witness for claim C7's theorem: a 2x2 array reshaped to (4,). -/
theorem reshape_preserves_witness :
    feReshape .np ⟨[2, 2], [1, 2, 3, 4]⟩ [4] = some ⟨[4], [1, 2, 3, 4]⟩ :=
  reshape_preserves_shape_and_elements .np ⟨[2, 2], [1, 2, 3, 4]⟩ [4] (by norm_num)

/-- Claim C8: for num_classes >= 1, whenever `_apply_onehot` returns a vector,
that vector is the all-(label_smoothing/num_classes) vector with one hot entry
set to 1 - label_smoothing + label_smoothing/num_classes, and it sums exactly
to 1. -/
theorem onehot_sum_one (nc : Nat) (ls : ℚ) (d : NpValue) (v : List ℚ)
    (hnc : 1 ≤ nc) (h : applyOnehot nc ls d = .result v) :
    v.sum = 1 ∧ ∃ p, p < nc ∧
      v = (List.replicate nc (ls / (nc : ℚ))).set p (1 - ls + ls / (nc : ℚ)) := by
  unfold applyOnehot at h
  split_ifs at h with h1 h2 h3 h4
  obtain ⟨hpos, hlt⟩ := h4
  injection h with hv
  have hplt : (pyIndex nc d.values.headI).toNat < nc := by omega
  refine ⟨?_, (pyIndex nc d.values.headI).toNat, hplt, hv.symm⟩
  rw [← hv, sum_replicate_set nc _ _ _ hplt]
  have hnz : (nc : ℚ) ≠ 0 := Nat.cast_ne_zero.mpr (by omega)
  field_simp
  ring

/-- Witness for claim C8's theorem: num_classes = 2, label_smoothing = 1/2,
label 1 gives the vector [1/4, 3/4] summing to 1. -/
theorem onehot_sum_one_witness :
    ([(1 : ℚ)/4, 3/4].sum = 1 ∧ ∃ p, p < 2 ∧
      [(1 : ℚ)/4, 3/4] =
        (List.replicate 2 ((1 : ℚ)/2 / (2 : ℚ))).set p (1 - 1/2 + (1 : ℚ)/2 / (2 : ℚ))) :=
  onehot_sum_one 2 (1/2) ⟨true, [1]⟩ [1/4, 3/4] (by norm_num)
    (by norm_num [applyOnehot, pyIndex, List.headI, List.replicate, List.set])

/-- Claim C9: for every single-item integer label with
-num_classes <= label < 0, `_apply_onehot` does not raise: the upper-bound
assertion passes and the hot value is written at the wrapped position
num_classes + label. -/
theorem onehot_negative_label_wraps (nc : Nat) (ls : ℚ) (l : Int)
    (h1 : -(nc : Int) ≤ l) (h2 : l < 0) :
    applyOnehot nc ls ⟨true, [l]⟩ =
      .result ((List.replicate nc (ls / (nc : ℚ))).set ((nc : Int) + l).toNat
        (1 - ls + ls / (nc : ℚ))) := by
  have hpy : pyIndex nc l = (nc : Int) + l := by
    unfold pyIndex; rw [if_pos h2]
  unfold applyOnehot
  simp only [List.headI, hpy]
  rw [if_neg (by simp), if_neg (by simp), if_neg (by omega), if_pos (by omega)]

/-- Witness for claim C9's theorem: num_classes = 3 and label -2 silently
produce a one-hot vector hot at position 1. -/
theorem onehot_negative_label_witness :
    applyOnehot 3 0 ⟨true, [-2]⟩ =
      .result ((List.replicate 3 ((0 : ℚ) / (3 : ℚ))).set ((3 : Int) + (-2)).toNat
        (1 - 0 + (0 : ℚ) / (3 : ℚ))) :=
  onehot_negative_label_wraps 3 0 (-2) (by norm_num) (by norm_num)

/-- Claim C10: `WrapText.dumps` returns the seqsplit-wrapped LaTeX-escaped
string if and only if the length of the stringified data strictly exceeds the
threshold; otherwise it returns the plain LaTeX-escaped string. -/
theorem wraptext_dumps_threshold_iff (w : WrapText) :
    (w.dumps = "\\seqsplit\x7b" ++ escape_latex w.data ++ "\x7d" ↔
      w.threshold < (w.data.length : Int)) ∧
    w.dumps = if w.threshold < (w.data.length : Int) then
        "\\seqsplit\x7b" ++ escape_latex w.data ++ "\x7d"
      else escape_latex w.data := by
  unfold WrapText.dumps
  by_cases h : w.threshold < (w.data.length : Int)
  · rw [if_pos h]
    exact ⟨⟨fun _ => h, fun _ => rfl⟩, rfl⟩
  · rw [if_neg h]
    refine ⟨⟨fun hc => ?_, fun hc => absurd hc h⟩, rfl⟩
    have hlen := congrArg String.length hc
    rw [String.length_append, String.length_append] at hlen
    have h10 : ("\\seqsplit\x7b" : String).length = 10 := rfl
    have h1 : ("\x7d" : String).length = 1 := rfl
    rw [h10, h1] at hlen
    omega
